import Mathlib

/-!
# Toronto-Fast-Crime-API — verification of the natural-language spec

Shallow embedding of the repository's Python sources in Lean 4:

* `scoring.py`     → namespaces `Scoring` (percentile machinery, `calculate_score`)
* `forecasting.py` → namespace `Forecasting` (`select_best_forecast`)
* `ingest_data.py` → namespace `Ingest` (CSV / GeoJSON row processing, store insertion)
* `generate_grid_benchmarks.py` → namespace `GridBench` (`generate_benchmarks`)

Python floats are modelled as `ℚ`; transcendental library calls
(`exp`, `cos`, haversine trigonometry), the lenient `dateutil` parser and the
statistical model-fitting libraries are modelled as explicit function
parameters ("oracles"), since the repository treats them as black boxes.
Pure structural logic (filters, sums, sorting, branching) is translated
directly from the Python source.
-/

namespace Scoring

/-- Python's `round` uses round-half-to-even on the value; `roundHalfEven x`
is that rounding of a rational to an integer. -/
def roundHalfEven (x : ℚ) : ℤ :=
  let f := ⌊x⌋
  let r := x - f
  if r < 1/2 then f
  else if 1/2 < r then f + 1
  else if f % 2 = 0 then f else f + 1

/-- Python `round(x, 1)`. -/
def pyRound1 (x : ℚ) : ℚ := (roundHalfEven (10 * x) : ℚ) / 10

/-- Python `int(x)` / numpy `astype(int)`: truncation toward zero. -/
def pyInt (x : ℚ) : ℤ := x.num / (x.den : ℤ)

/-- `scoring.py::percentile_to_safety_score` — maps a risk percentile (0-100)
to a safety score (0-100) through the piecewise-linear curve of the source. -/
def percentile_to_safety_score (percentile : ℚ) : ℚ :=
  if percentile ≤ 50 then
    100 - (percentile / 50) * 10
  else if percentile ≤ 80 then
    let progress := (percentile - 50) / 30
    90 - progress * 20
  else if percentile ≤ 95 then
    let progress := (percentile - 80) / 15
    70 - progress * 30
  else
    let progress := (percentile - 95) / 5
    40 - progress * 40

/-- The loop of CPython's `bisect.bisect_left(a, x, lo, hi)`:
binary search narrowing `[lo, hi)` until `lo = hi`. -/
def bisectLoop (l : List ℚ) (x : ℚ) (lo hi : ℕ) : ℕ :=
  if h : lo < hi then
    let mid := (lo + hi) / 2
    if l.getD mid 0 < x then bisectLoop l x (mid + 1) hi
    else bisectLoop l x lo mid
  else lo
termination_by hi - lo
decreasing_by
  · omega
  · omega

/-- `bisect.bisect_left(l, x)` as called by `calculate_percentile_score`. -/
def bisect_left (l : List ℚ) (x : ℚ) : ℕ := bisectLoop l x 0 l.length

/-- `scoring.py::calculate_percentile_score` — percentile of `raw_score` in the
sorted reference `distribution`, converted to a safety score.  Note the source
checks `if not distribution` *before* `if raw_score <= 0`. -/
def calculate_percentile_score (raw_score : ℚ) (distribution : List ℚ) : ℚ × ℚ :=
  if distribution = [] then (50, 50)
  else if raw_score ≤ 0 then (100, 0)
  else
    let idx := bisect_left distribution raw_score
    let percentile := ((idx : ℚ) / (distribution.length : ℚ)) * 100
    let safety_score := percentile_to_safety_score percentile
    (pyRound1 safety_score, pyRound1 percentile)

/-! ## Helper lemmas about the percentile machinery -/

theorem roundHalfEven_nonneg {x : ℚ} (hx : 0 ≤ x) : 0 ≤ roundHalfEven x := by
  unfold roundHalfEven
  have h0 : (0 : ℤ) ≤ ⌊x⌋ := Int.floor_nonneg.mpr hx
  dsimp only
  split_ifs <;> omega

theorem roundHalfEven_le {x : ℚ} {n : ℤ} (hB : x ≤ (n : ℚ)) :
    (roundHalfEven x : ℚ) ≤ (n : ℚ) := by
  unfold roundHalfEven
  have hfl : (⌊x⌋ : ℚ) ≤ x := Int.floor_le x
  dsimp only
  split_ifs with h1 h2 h3
  · linarith
  · have hq : (⌊x⌋ : ℚ) < (n : ℚ) := by linarith
    have hz : ⌊x⌋ + 1 ≤ n := by exact_mod_cast hq
    exact_mod_cast hz
  · linarith
  · have hr : x - (⌊x⌋ : ℚ) = 1/2 := le_antisymm (not_lt.mp h2) (not_lt.mp h1)
    have hq : (⌊x⌋ : ℚ) < (n : ℚ) := by linarith
    have hz : ⌊x⌋ + 1 ≤ n := by exact_mod_cast hq
    exact_mod_cast hz

theorem pyRound1_nonneg {x : ℚ} (hx : 0 ≤ x) : 0 ≤ pyRound1 x := by
  unfold pyRound1
  have := roundHalfEven_nonneg (x := 10 * x) (by linarith)
  have : (0 : ℚ) ≤ (roundHalfEven (10 * x) : ℚ) := by exact_mod_cast this
  linarith

theorem pyRound1_le_100 {x : ℚ} (hx : x ≤ 100) : pyRound1 x ≤ 100 := by
  unfold pyRound1
  have h := roundHalfEven_le (x := 10 * x) (n := 1000) (by push_cast; linarith)
  push_cast at h
  linarith

theorem percentile_to_safety_score_antitone {p q : ℚ} (hpq : p ≤ q) :
    percentile_to_safety_score q ≤ percentile_to_safety_score p := by
  unfold percentile_to_safety_score
  dsimp only
  split_ifs <;> linarith

theorem percentile_to_safety_score_nonneg {p : ℚ} (hp : p ≤ 100) :
    0 ≤ percentile_to_safety_score p := by
  unfold percentile_to_safety_score
  dsimp only
  split_ifs <;> linarith

theorem percentile_to_safety_score_le_100 {p : ℚ} (hp : 0 ≤ p) :
    percentile_to_safety_score p ≤ 100 := by
  unfold percentile_to_safety_score
  dsimp only
  split_ifs <;> linarith

/-- In a `≤`-sorted rational list, the number of elements strictly below `x`
bounds every index whose element is `≥ x`. -/
theorem countP_lt_le_of_sorted {l : List ℚ} (hs : l.Sorted (· ≤ ·)) {x : ℚ} :
    ∀ {i : ℕ} (h : i < l.length), x ≤ l.get ⟨i, h⟩ →
      l.countP (fun y => decide (y < x)) ≤ i := by
  induction l with
  | nil => intro i h; simp at h
  | cons a t ih =>
    intro i h hx
    rcases List.sorted_cons.mp hs with ⟨ha, ht⟩
    cases i with
    | zero =>
      simp only [List.get] at hx
      have : ∀ y ∈ a :: t, ¬ (decide (y < x) = true) := by
        intro y hy
        simp only [decide_eq_true_eq]
        rcases List.mem_cons.mp hy with rfl | hyt
        · exact not_lt.mpr hx
        · exact not_lt.mpr (le_trans hx (ha y hyt))
      simp [List.countP_eq_zero.mpr this]
    | succ i' =>
      simp only [List.length_cons, Nat.succ_lt_succ_iff] at h
      simp only [List.get] at hx
      have hcount := ih ht (i := i') h hx
      rw [List.countP_cons]
      split_ifs <;> omega

/-- In a `≤`-sorted rational list, an index whose element is `< x` is strictly
below the count of elements `< x`. -/
theorem lt_countP_of_sorted {l : List ℚ} (hs : l.Sorted (· ≤ ·)) {x : ℚ} :
    ∀ {i : ℕ} (h : i < l.length), l.get ⟨i, h⟩ < x →
      i + 1 ≤ l.countP (fun y => decide (y < x)) := by
  induction l with
  | nil => intro i h; simp at h
  | cons a t ih =>
    intro i h hx
    rcases List.sorted_cons.mp hs with ⟨ha, ht⟩
    cases i with
    | zero =>
      simp only [List.get] at hx
      rw [List.countP_cons]
      have : decide (a < x) = true := decide_eq_true hx
      simp [this]
    | succ i' =>
      simp only [List.length_cons, Nat.succ_lt_succ_iff] at h
      simp only [List.get] at hx
      have hcount := ih ht (i := i') h hx
      rw [List.countP_cons]
      have hax : a < x := lt_of_le_of_lt (ha _ (t.get_mem i' h)) hx
      have : decide (a < x) = true := decide_eq_true hax
      simp only [this, if_true]
      omega

/-- Correctness of the embedded binary search: on a sorted list it returns the
number of elements strictly less than the probe — exactly the spec's
"count of reference values strictly less than raw_score". -/
theorem bisectLoop_eq_countP {l : List ℚ} (hs : l.Sorted (· ≤ ·)) (x : ℚ) :
    ∀ n lo hi, hi - lo ≤ n →
      lo ≤ l.countP (fun y => decide (y < x)) →
      l.countP (fun y => decide (y < x)) ≤ hi →
      hi ≤ l.length →
      bisectLoop l x lo hi = l.countP (fun y => decide (y < x)) := by
  intro n
  induction n with
  | zero =>
    intro lo hi hfuel hlo hhi _
    rw [bisectLoop]
    have : ¬ lo < hi := by omega
    simp only [this, dite_false]
    omega
  | succ n ih =>
    intro lo hi hfuel hlo hhi hlen
    rw [bisectLoop]
    by_cases hlh : lo < hi
    · simp only [hlh, dite_true]
      set c := l.countP (fun y => decide (y < x)) with hc
      have hmidlt : (lo + hi) / 2 < hi := by omega
      have hmidge : lo ≤ (lo + hi) / 2 := by omega
      have hmidlen : (lo + hi) / 2 < l.length := lt_of_lt_of_le hmidlt hlen
      have hget : l.getD ((lo + hi) / 2) 0 = l.get ⟨(lo + hi) / 2, hmidlen⟩ := by
        rw [List.getD_eq_getElem?_getD, List.getElem?_eq_getElem hmidlen]
        simp [List.get_eq_getElem]
      by_cases hcmp : l.getD ((lo + hi) / 2) 0 < x
      · simp only [hcmp, if_true]
        have hcge : (lo + hi) / 2 + 1 ≤ c := by
          have := lt_countP_of_sorted hs (x := x) hmidlen (by rw [← hget]; exact hcmp)
          omega
        exact ih ((lo + hi) / 2 + 1) hi (by omega) hcge hhi hlen
      · simp only [hcmp, if_false]
        have hcle : c ≤ (lo + hi) / 2 := by
          have := countP_lt_le_of_sorted hs (x := x) hmidlen
            (by rw [← hget]; exact not_lt.mp hcmp)
          omega
        exact ih lo ((lo + hi) / 2) (by omega) hlo hcle (le_of_lt hmidlen)
    · simp only [hlh, dite_false]
      omega

theorem bisect_left_eq_countP {l : List ℚ} (hs : l.Sorted (· ≤ ·)) (x : ℚ) :
    bisect_left l x = l.countP (fun y => decide (y < x)) := by
  unfold bisect_left
  exact bisectLoop_eq_countP hs x l.length 0 l.length (by omega)
    (Nat.zero_le _) (l.countP_le_length _) le_rfl

end Scoring

namespace Ingest

/-- A flexibly-parsed datetime, as produced by `dateutil.parser.parse`
(`ingest_data.py::parse_date`); the parser itself is an external library and
is passed around as an oracle `String → Option PDate`. -/
structure PDate where
  year : ℤ
  month : ℤ
  day : ℤ
  hour : ℤ
  minute : ℤ
  second : ℤ
deriving DecidableEq, Repr

/-- One row of the `crimes` table (minus the autoincrement `id` and the
`source_file` provenance column, which no claim touches).  The `date` column
is TEXT in SQLite and holds `str(dt)`; we keep the parsed value, `none`
standing for the literal text `"None"` that `str(None)` produces when the
GeoJSON path fails to parse a date. -/
structure CrimeRec where
  event_unique_id : String
  date : Option PDate
  lat : ℚ
  lon : ℚ
  category : String
  type : String
  premises_type : String
  neighbourhood : String
deriving DecidableEq, Repr

/-- `ingest_data.py::CATEGORY_MAPPING` (filename keyword → category). -/
def CATEGORY_MAPPING : List (String × String) :=
  [("assault", "Assault"),
   ("auto_theft", "Auto Theft"),
   ("bicycle", "Bicycle Theft"),
   ("break_and_enter", "Break and Enter"),
   ("homicide", "Homicide"),
   ("robbery", "Robbery"),
   ("shooting", "Shooting"),
   ("theft_from_motor_vehicle", "Theft From Motor Vehicle"),
   ("theft_over", "Theft Over"),
   ("hate_crime", "Hate Crime")]

/-- Python's substring test `pat in s` (for non-empty `pat`). -/
def containsSub (s pat : String) : Bool := 1 < (s.splitOn pat).length

/-- `ingest_csv`'s filename-derived fallback category: the first
`CATEGORY_MAPPING` key occurring in the lowercased basename, else "Other". -/
def file_category_of (base_name : String) : String :=
  ((CATEGORY_MAPPING.find? (fun kv => containsSub base_name.toLower kv.1)).map
    Prod.snd).getD "Other"

/-- One raw tabular row as read by `pd.read_csv`; absent/NaN cells are
`none`.  `OCC_HOUR` is kept as an integer (the source applies `int(...)`
inside a `try` that no claim depends on). -/
structure CsvRow where
  LAT_WGS84 : Option ℚ
  Latitude : Option ℚ
  LONG_WGS84 : Option ℚ
  Longitude : Option ℚ
  OCC_DATE : Option String
  OCC_date : Option String
  REPORT_DATE : Option String
  OCC_HOUR : Option ℤ
  MCI_CATEGORY : Option String
  OFFENCE : Option String
  PRIMARY_OFFENCE : Option String
  PREMISES_TYPE : Option String
  NEIGHBOURHOOD_158 : Option String
  NEIGHBOURHOOD_140 : Option String
  EVENT_UNIQUE_ID : Option String
  OBJECTID : Option String
deriving DecidableEq, Repr

/-- The date-string fallback chain of `ingest_csv`
(`OCC_DATE`, else `OCC_date`, else `REPORT_DATE`); when all are missing the
Python code ends up parsing `str(nan) = "nan"`. -/
def csv_date_str (row : CsvRow) : String :=
  row.OCC_DATE.getD (row.OCC_date.getD (row.REPORT_DATE.getD "nan"))

/-- The per-row body of `ingest_data.py::ingest_csv`: `none` means the row is
skipped (`continue`), `some rec` is the tuple appended to `records`. -/
def process_csv_row (parse : String → Option PDate) (file_category : String)
    (row : CsvRow) : Option CrimeRec :=
  match row.LAT_WGS84.orElse (fun _ => row.Latitude),
        row.LONG_WGS84.orElse (fun _ => row.Longitude) with
  | some lat, some lon =>
    if lat = 0 ∨ lon = 0 then none
    else
      match parse (csv_date_str row) with
      | none => none
      | some dt0 =>
        let dt := match row.OCC_HOUR with
          | some h => { dt0 with hour := h, minute := 0, second := 0 }
          | none => dt0
        let category := match row.MCI_CATEGORY with
          | some c => if c = "NonMCI" then file_category else c
          | none => file_category
        let crime_type := (row.OFFENCE.orElse (fun _ => row.PRIMARY_OFFENCE)).getD category
        let premises := row.PREMISES_TYPE.getD "Unknown"
        let hood := (row.NEIGHBOURHOOD_158.orElse (fun _ => row.NEIGHBOURHOOD_140)).getD "Unknown"
        let event_id := (row.EVENT_UNIQUE_ID.orElse (fun _ => row.OBJECTID)).getD "nan"
        some ⟨event_id, some dt, lat, lon, category, crime_type, premises, hood⟩
  | _, _ => none

/-- One GeoJSON feature (`geometry.type`, `geometry.coordinates`, and the
`properties` fields the source reads). -/
structure GeoFeature where
  geometry_type : String
  coordinates : Option (List ℚ)
  OCC_DATE : Option String
  HOMICIDE_TYPE : Option String
  NEIGHBOURHOOD_158 : Option String
  EVENT_UNIQUE_ID : Option String
deriving DecidableEq, Repr

/-- The per-feature body of `ingest_data.py::ingest_geojson`.  Note: the
source only skips non-`Point` geometries and missing/short coordinate lists;
it performs no zero-coordinate or date-parse validation. -/
def process_geojson_feature (parse : String → Option PDate) (f : GeoFeature) :
    Option CrimeRec :=
  if f.geometry_type ≠ "Point" then none
  else
    match f.coordinates with
    | none => none
    | some coords =>
      if coords.length < 2 then none
      else
        let lon := coords.getD 0 0
        let lat := coords.getD 1 0
        let dt := parse (f.OCC_DATE.getD "None")
        let category := match f.HOMICIDE_TYPE with
          | some c => if c = "" then "Homicide" else c
          | none => "Homicide"
        let event_id := f.EVENT_UNIQUE_ID.getD "None"
        some ⟨event_id, dt, lat, lon, category, category, "Unknown",
          f.NEIGHBOURHOOD_158.getD "Unknown"⟩

/-- Whether some stored row already carries this `event_unique_id`
(the UNIQUE constraint of `create_table`). -/
def idPresent (store : List CrimeRec) (eid : String) : Bool :=
  store.any (fun r => decide (r.event_unique_id = eid))

/-- `INSERT OR IGNORE` of a single row into the `crimes` table: a row whose
`event_unique_id` already exists is silently skipped, no error, no overwrite. -/
def insert_or_ignore (store : List CrimeRec) (r : CrimeRec) : List CrimeRec :=
  if idPresent store r.event_unique_id then store else store ++ [r]

/-- `cursor.executemany('INSERT OR IGNORE ...', records)`. -/
def insert_many (store : List CrimeRec) (records : List CrimeRec) : List CrimeRec :=
  records.foldl insert_or_ignore store

/-- `ingest_data.py::ingest_csv` on an already-read file: derive the fallback
category from the file name, process every row (dropping invalid ones), and
bulk-insert with duplicate-ignore semantics. -/
def ingest_csv (parse : String → Option PDate) (file_name : String)
    (rows : List CsvRow) (store : List CrimeRec) : List CrimeRec :=
  insert_many store (rows.filterMap (process_csv_row parse (file_category_of file_name)))

/-- `ingest_data.py::ingest_geojson` on an already-read feature list. -/
def ingest_geojson (parse : String → Option PDate) (features : List GeoFeature)
    (store : List CrimeRec) : List CrimeRec :=
  insert_many store (features.filterMap (process_geojson_feature parse))

/-! ## Store lemmas -/

theorem idPresent_insert_or_ignore (store : List CrimeRec) (r : CrimeRec) (e : String)
    (h : idPresent store e = true) : idPresent (insert_or_ignore store r) e = true := by
  unfold insert_or_ignore
  split_ifs
  · exact h
  · unfold idPresent at h ⊢
    rw [List.any_append]
    simp [h]

theorem idPresent_self_insert (store : List CrimeRec) (r : CrimeRec) :
    idPresent (insert_or_ignore store r) r.event_unique_id = true := by
  unfold insert_or_ignore
  split_ifs with h
  · exact h
  · unfold idPresent
    rw [List.any_append]
    simp

theorem idPresent_insert_many (store : List CrimeRec) (records : List CrimeRec)
    (e : String) (h : idPresent store e = true) :
    idPresent (insert_many store records) e = true := by
  induction records generalizing store with
  | nil => exact h
  | cons r t ih => exact ih _ (idPresent_insert_or_ignore store r e h)

theorem idPresent_of_mem_insert_many (store : List CrimeRec) (records : List CrimeRec)
    (r : CrimeRec) (hr : r ∈ records) :
    idPresent (insert_many store records) r.event_unique_id = true := by
  induction records generalizing store with
  | nil => cases hr
  | cons a t ih =>
    rcases List.mem_cons.mp hr with rfl | hrt
    · exact idPresent_insert_many _ t _ (idPresent_self_insert store r)
    · exact ih (insert_or_ignore store a) hrt

theorem insert_many_of_all_present (store : List CrimeRec) (records : List CrimeRec)
    (h : ∀ r ∈ records, idPresent store r.event_unique_id = true) :
    insert_many store records = store := by
  induction records generalizing store with
  | nil => rfl
  | cons a t ih =>
    have ha : insert_or_ignore store a = store := by
      unfold insert_or_ignore
      rw [h a (List.mem_cons_self a t)]
      simp
    show insert_many (insert_or_ignore store a) t = store
    rw [ha]
    exact ih store (fun r hr => h r (List.mem_cons_of_mem a hr))

theorem mem_insert_or_ignore (store : List CrimeRec) (r x : CrimeRec)
    (hx : x ∈ insert_or_ignore store r) : x ∈ store ∨ x = r := by
  unfold insert_or_ignore at hx
  split_ifs at hx
  · exact Or.inl hx
  · rcases List.mem_append.mp hx with h | h
    · exact Or.inl h
    · exact Or.inr (List.mem_singleton.mp h)

theorem mem_insert_many (store : List CrimeRec) (records : List CrimeRec) (x : CrimeRec)
    (hx : x ∈ insert_many store records) : x ∈ store ∨ x ∈ records := by
  induction records generalizing store with
  | nil => exact Or.inl hx
  | cons a t ih =>
    rcases ih (insert_or_ignore store a) hx with h | h
    · rcases mem_insert_or_ignore store a x h with h' | h'
      · exact Or.inl h'
      · exact Or.inr (by simp [h'])
    · exact Or.inr (List.mem_cons_of_mem a h)

/-- Rows accepted by the CSV path always carry non-zero coordinates and a
successfully parsed date. -/
theorem process_csv_row_validated (parse : String → Option PDate)
    (fc : String) (row : CsvRow) (rec : CrimeRec)
    (h : process_csv_row parse fc row = some rec) :
    rec.lat ≠ 0 ∧ rec.lon ≠ 0 ∧ rec.date.isSome = true := by
  unfold process_csv_row at h
  cases hlat : row.LAT_WGS84.orElse (fun _ => row.Latitude) with
  | none => rw [hlat] at h; simp at h
  | some lat =>
    cases hlon : row.LONG_WGS84.orElse (fun _ => row.Longitude) with
    | none => rw [hlat, hlon] at h; simp at h
    | some lon =>
      rw [hlat, hlon] at h
      simp only at h
      split_ifs at h with hzero
      cases hp : parse (csv_date_str row) with
      | none => rw [hp] at h; simp at h
      | some dt0 =>
        rw [hp] at h
        simp only [Option.some.injEq] at h
        push_neg at hzero
        subst h
        exact ⟨hzero.1, hzero.2, rfl⟩

end Ingest

namespace Forecasting

/-- One entry of the yearly history handed to `select_best_forecast`
(`{year, safety_score, incident_count}`; `scoring.py` stores the year as
`str(...)` and `forecasting.py` reads it back through `int(...)`). -/
structure HistEntry where
  year : ℤ
  safety_score : ℚ
  incident_count : ℕ
deriving DecidableEq, Repr

/-- A successful fit returned by one of the candidate models (the `results`
list built by the model loop in `select_best_forecast`).  The numeric fitting
itself (statsmodels / sklearn) is external library code; a run of the loop is
therefore modelled as an input list of these records. -/
structure ModelResult where
  model : String
  predicted_score : ℚ
  rmse : ℚ
  confidence_interval : ℚ
deriving DecidableEq, Repr

/-- The source stores the confidence interval as a number (`0`) on the
fallback paths but as a formatted string on the success path. -/
inductive CIValue where
  | num : ℚ → CIValue
  | txt : String → CIValue
deriving DecidableEq, Repr

/-- `forecasting.py`'s Forecast Result dictionary. -/
structure Forecast where
  predicted_score : ℚ
  trend_direction : String
  model_used : String
  rmse : ℚ
  confidence_interval : CIValue
deriving DecidableEq, Repr

/-- `history[-1]['safety_score'] if history else 50`. -/
def lastScore (history : List HistEntry) : ℚ :=
  ((history.getLast?).map HistEntry.safety_score).getD 50

/-- `history[-2]['safety_score'] if len(history) > 1 else current`. -/
def prevScore (history : List HistEntry) : ℚ :=
  if 1 < history.length then
    ((history.reverse[1]?).map HistEntry.safety_score).getD (lastScore history)
  else lastScore history

/-- `min(results, key=lambda x: x['rmse'])` — Python's `min` keeps the first
element attaining the minimum. -/
def bestBy (b : ModelResult) (rest : List ModelResult) : ModelResult :=
  rest.foldl (fun acc r => if r.rmse < acc.rmse then r else acc) b

/-- `forecasting.py::select_best_forecast`, with the outcome of the
model-fitting loop supplied as `results`.  Faithfully keeps the source's
order of checks: the insufficient-data early return (`len(history) < 3`)
fires before any model result is consulted; the mojibake "Â±" prefix of the
source's f-string is reproduced as-is. -/
def select_best_forecast (history : List HistEntry) (results : List ModelResult) :
    Forecast :=
  if history.length < 3 then
    ⟨lastScore history, "Stable", "Insufficient Data", 0, .num 0⟩
  else
    match results with
    | [] => ⟨lastScore history, "Stable", "Fallback", 0, .num 0⟩
    | b :: rest =>
      let best := bestBy b rest
      let current := lastScore history
      let previous := prevScore history
      let recent_diff := current - previous
      let po : ℚ × Option String :=
        if 10 < recent_diff then
          (if best.predicted_score < current then (current, some "Improving")
           else (best.predicted_score, none))
        else if recent_diff < -10 then
          (if current < best.predicted_score then (current, some "Declining")
           else (best.predicted_score, none))
        else (best.predicted_score, none)
      let predicted := po.1
      let trend := match po.2 with
        | some t => t
        | none =>
          if current + 2 < predicted then "Improving"
          else if predicted < current - 2 then "Declining"
          else "Stable"
      ⟨predicted, trend,
       best.model ++ (if po.2.isSome then " (Adjusted)" else ""),
       best.rmse, .txt ("Â±" ++ toString best.confidence_interval)⟩

end Forecasting

namespace Scoring

/-- The Severity Weight Table — defined identically (`WEIGHTS`) in
`scoring.py` and `generate_grid_benchmarks.py`. -/
def WEIGHTS : List (String × ℚ) :=
  [("Homicide", 100),
   ("Shooting", 50),
   ("Assault", 15),
   ("Robbery", 10),
   ("Break and Enter", 8),
   ("Auto Theft", 6),
   ("Theft Over", 4),
   ("Theft From Motor Vehicle", 3),
   ("Bicycle Theft", 2),
   ("NonMCI", 2),
   ("Other", 1)]

/-- `df['category'].map(WEIGHTS).fillna(1)` — severity weight of a category,
defaulting to 1. -/
def weightOf (c : String) : ℚ :=
  ((WEIGHTS.find? (fun p => decide (p.1 = c))).map Prod.snd).getD 1

/-- Python `list.sort()` / ascending sort of a rational list. -/
def sortAsc (l : List ℚ) : List ℚ := l.mergeSort (fun a b => decide (a ≤ b))

theorem length_sortAsc (l : List ℚ) : (sortAsc l).length = l.length :=
  List.length_mergeSort l

theorem sorted_sortAsc (l : List ℚ) : (sortAsc l).Sorted (· ≤ ·) := by
  have h := @List.sorted_mergeSort ℚ (fun a b : ℚ => decide (a ≤ b))
    (fun a b c hab hbc => by
      simp only [decide_eq_true_eq] at *
      exact le_trans hab hbc)
    (fun a b => by
      simp only [Bool.or_eq_true, decide_eq_true_eq]
      exact le_total a b)
    l
  exact h.imp (fun {a b} hab => by simpa using hab)

end Scoring

namespace GridBench

/-- One incident as loaded by `generate_grid_benchmarks.py` (columns
`date, category, lat, lon` restricted to the trailing year by the SQL query;
`days_old` is the pandas-derived age in days). -/
structure GIncident where
  lat : ℚ
  lon : ℚ
  category : String
  days_old : ℤ
deriving DecidableEq, Repr

def GRID_RESOLUTION_KM : ℚ := 1/5
def RADIUS_KM : ℚ := 4/5

/-- `generate_grid_benchmarks.py::calculate_raw_score`.  `distKm` is the
haversine great-circle distance (trigonometric library code, supplied as an
oracle taking incident lat/lon then point lat/lon); `timeFactor` is
`np.exp(-0.15 * years)` (likewise an oracle on `years`). -/
def calculate_raw_score (distKm : ℚ → ℚ → ℚ → ℚ → ℚ) (timeFactor : ℚ → ℚ)
    (df : List GIncident) (lat lon radius_km : ℚ) : ℚ × (String → ℚ) :=
  let subset := df.filter (fun r =>
    decide (lat - 1/100 ≤ r.lat) && decide (r.lat ≤ lat + 1/100) &&
    decide (lon - 3/200 ≤ r.lon) && decide (r.lon ≤ lon + 3/200))
  if subset = [] then (0, fun _ => 0)
  else
    let nearby := subset.filter (fun r => decide (distKm r.lat r.lon lat lon ≤ radius_km))
    if nearby = [] then (0, fun _ => 0)
    else
      let score := fun (r : GIncident) =>
        Scoring.weightOf r.category * timeFactor ((r.days_old : ℚ) / (1461/4))
      ((nearby.map score).sum,
       fun c => ((nearby.filter (fun r => decide (r.category = c))).map score).sum)

/-- `np.arange(start, stop, step)` for a positive step, in exact arithmetic:
`⌈(stop−start)/step⌉` equally spaced values from `start`. -/
def arangeQ (start stop step : ℚ) : List ℚ :=
  (List.range (⌈(stop - start) / step⌉).toNat).map (fun i => start + (i : ℚ) * step)

/-- `lats = np.arange(43.58, 43.85, lat_step)`. -/
def latsGrid : List ℚ := arangeQ (4358/100) (4385/100) (GRID_RESOLUTION_KM / 111)

/-- `lons = np.arange(-79.64, -79.12, lon_step)`; `cosDeg` is the oracle for
`np.cos(np.radians(·))`. -/
def lonsGrid (cosDeg : ℚ → ℚ) : List ℚ :=
  arangeQ (-7964/100) (-7912/100) (GRID_RESOLUTION_KM / (111 * cosDeg (437/10)))

/-- `grid_points = [(lat, lon) for lat in lats for lon in lons]` — the full
cartesian product. -/
def grid_points (cosDeg : ℚ → ℚ) : List (ℚ × ℚ) :=
  latsGrid.flatMap (fun la => (lonsGrid cosDeg).map (fun lo => (la, lo)))

/-- The persisted `benchmarks.json` document (generation timestamp omitted:
wall-clock time, not data). -/
structure BenchmarkDoc where
  grid_resolution_km : ℚ
  radius_km : ℚ
  total_points : ℕ
  data_records : ℕ
  overall_distribution : List ℚ
  by_category : List (String × List ℚ)
deriving DecidableEq, Repr

/-- The document built by the main loop of `generate_benchmarks` once data is
present: one raw score appended per grid point (zero scores included), one
per-category value per grid point for every severity-table category, then
every array sorted ascending. -/
def buildDoc (distKm : ℚ → ℚ → ℚ → ℚ → ℚ) (timeFactor : ℚ → ℚ)
    (cosDeg : ℚ → ℚ) (df : List GIncident) : BenchmarkDoc :=
  let gps := grid_points cosDeg
  let results := gps.map (fun p => calculate_raw_score distKm timeFactor df p.1 p.2 RADIUS_KM)
  ⟨GRID_RESOLUTION_KM, RADIUS_KM, gps.length, df.length,
   Scoring.sortAsc (results.map Prod.fst),
   Scoring.WEIGHTS.map (fun cw => (cw.1, Scoring.sortAsc (results.map (fun r => r.2 cw.1))))⟩

/-- `generate_grid_benchmarks.py::generate_benchmarks`: on an empty incident
table it prints an error and returns without writing anything (`none`);
otherwise it persists the built document. -/
def generate_benchmarks (distKm : ℚ → ℚ → ℚ → ℚ → ℚ) (timeFactor : ℚ → ℚ)
    (cosDeg : ℚ → ℚ) (df : List GIncident) : Option BenchmarkDoc :=
  if df = [] then none else some (buildDoc distKm timeFactor cosDeg df)

end GridBench

namespace Scoring

/-- The in-memory `BENCHMARKS` dictionary loaded from `benchmarks.json`
(`load_benchmarks` returns `{}` when the file is missing, modelled as empty
lists: `BENCHMARKS.get("overall_distribution", [])` and
`by_category.get(cat, [])` then yield `[]`). -/
structure Benchmarks where
  overall_distribution : List ℚ
  by_category : List (String × List ℚ)
deriving DecidableEq, Repr

/-- `BENCHMARKS.get("by_category", {}).get(cat, [])`. -/
def catDist (B : Benchmarks) (c : String) : List ℚ :=
  ((B.by_category.find? (fun p => decide (p.1 = c))).map Prod.snd).getD []

/-- One candidate row of `calculate_score`'s DataFrame after preprocessing.
`days_old` is `(now - date).dt.days`; `hour`, `month`, `dayofweek` are the
Toronto-local components pandas derives from the timestamp.  The haversine
`distance` column is supplied by the `dist` oracle of `calculate_score`. -/
structure Incident where
  days_old : ℤ
  category : String
  type : String
  premises_type : String
  neighbourhood : String
  hour : ℕ
  month : ℕ
  dayofweek : ℕ
deriving DecidableEq, Repr

/-- `df['score'] = df['weight'] * np.exp(-0.15 * df['years_old'])` with
`years_old = days_old / 365.25`; `tf` is the `np.exp(-0.15 * ·)` oracle. -/
def scoreOf (tf : ℚ → ℚ) (r : Incident) : ℚ :=
  weightOf r.category * tf ((r.days_old : ℚ) / (1461/4))

/-- Distinct values of a list in order of first appearance. -/
def firstOccurrences {α : Type} [DecidableEq α] : List α → List α
  | [] => []
  | a :: t => a :: firstOccurrences (t.filter (fun x => decide (x ≠ a)))
termination_by l => l.length
decreasing_by
  simp only [List.length_cons]
  have := List.length_filter_le (fun x => decide (x ≠ a)) t
  omega

/-- pandas `value_counts()`: distinct values with their counts, stably sorted
by count descending (tie order among equal counts is not specified by pandas;
first appearance is used here). -/
def valueCounts {α : Type} [DecidableEq α] (l : List α) : List (α × ℕ) :=
  ((firstOccurrences l).map (fun v => (v, l.count v))).mergeSort
    (fun a b => decide (b.2 ≤ a.2))

/-- pandas `Series.mode()[0]`: the smallest of the most frequent values
(`mode()` returns the modes sorted ascending). -/
def strMode (l : List String) : String :=
  let vc := (firstOccurrences l).map (fun v => (v, l.count v))
  let maxCount := (vc.map Prod.snd).foldl max 0
  let candidates := (vc.filter (fun p => decide (p.2 = maxCount))).map Prod.fst
  candidates.foldl (fun acc s => if s < acc then s else acc) (candidates.headD "Unknown")

/-- pandas `Series.max()` over a non-empty list. -/
def listMaxQ (l : List ℚ) : ℚ := l.foldl max (l.headD 0)

/-- pandas `Series.idxmax()`: first index attaining the maximum. -/
def idxMaxQ (l : List ℚ) : ℕ :=
  (List.range l.length).foldl
    (fun best i => if l.getD best 0 < l.getD i 0 then i else best) 0

/-- `datetime.now().replace(hour=h, minute=0).strftime("%-I%p").lower()`. -/
def fmtHour (h : ℕ) : String :=
  (toString (if h % 12 = 0 then 12 else h % 12)) ++ (if h < 12 then "am" else "pm")

/-- The 3-hour sliding-window scan for the peak-risk range: first start index
of the window (wrapping at 24) with the strictly lowest average safety. -/
def peakStartOf (clock : List ℤ) : ℕ :=
  ((List.range 24).foldl (fun (acc : Option ℚ × ℕ) i =>
    let w : ℚ := ((clock.getD i 0 + clock.getD ((i+1) % 24) 0
      + clock.getD ((i+2) % 24) 0 : ℤ) : ℚ) / 3
    match acc.1 with
    | none => (some w, i)
    | some m => if w < m then (some w, i) else acc) (none, 0)).2

/-- `np.median` of a non-empty list. -/
def npMedian (l : List ℚ) : ℚ :=
  let s := sortAsc l
  let n := s.length
  if n % 2 = 1 then s.getD (n / 2) 0
  else (s.getD (n / 2 - 1) 0 + s.getD (n / 2) 0) / 2

/-- One entry of the Score Response's `category_breakdown`. -/
structure CatEntry where
  safety_score : ℚ
  category_percentile : ℚ
  incident_count : ℕ
  city_avg_incidents : ℤ
  trend : String
  weighted_impact : ℚ
  top_subtypes : List (String × ℕ)
deriving DecidableEq, Repr

/-- The per-category entry built inside the loop of section
"4. Category Breakdown" of `calculate_score` for one severity-table entry
`cw` whose `cat_df` is non-empty.  Note the trend masks are taken over
`cat_df ⊆ df_current` (already ≤ 365 days old). -/
def catEntryOf (B : Benchmarks) (tf : ℚ → ℚ) (df_current : List Incident)
    (cw : String × ℚ) : CatEntry :=
  let cat_df := df_current.filter (fun r => decide (r.category = cw.1))
  let cat_raw_risk := (cat_df.map (scoreOf tf)).sum
  let cat_dist := catDist B cw.1
  let sp := calculate_percentile_score cat_raw_risk cat_dist
  let city_avg_incidents : ℤ :=
    if cat_dist = [] then 0
    else
      let non_zero_cat := cat_dist.filter (fun x => decide (0 < x))
      let city_avg_raw := if non_zero_cat = [] then 0 else npMedian non_zero_cat
      if 0 < cw.2 then pyInt (city_avg_raw / cw.2 / (9/10)) else 0
  let recent_count := (cat_df.filter (fun r => decide (r.days_old ≤ 365))).length
  let prev_count := (cat_df.filter (fun r =>
    decide (365 < r.days_old) && decide (r.days_old ≤ 730))).length
  let trend :=
    if prev_count = 0 then (if 0 < recent_count then "Up" else "Stable")
    else
      let change := ((recent_count : ℚ) - (prev_count : ℚ)) / (prev_count : ℚ)
      if 1/5 < change then "Up"
      else if change < -(1/5) then "Down"
      else "Stable"
  ⟨sp.1, sp.2, cat_df.length, city_avg_incidents, trend,
   pyRound1 cat_raw_risk, (valueCounts (cat_df.map Incident.type)).take 3⟩

/-- Section "4. Category Breakdown" of `calculate_score`: iterate over
`WEIGHTS.keys()` (only the fixed severity-table categories!), skip categories
with no rows in `df_current`, and build the per-category entry. -/
def categoryBreakdownOf (B : Benchmarks) (tf : ℚ → ℚ)
    (df_current : List Incident) : List (String × CatEntry) :=
  WEIGHTS.filterMap (fun cw =>
    if (df_current.filter (fun r => decide (r.category = cw.1))).length = 0 then none
    else some (cw.1, catEntryOf B tf df_current cw))

/-- The `insights` dictionary of the Score Response. -/
structure Insights where
  safety_clock : List ℤ
  monthly_pattern : List ℤ
  weekly_pattern : List ℚ
  peak_hour : String
  peak_time_range : String
  primary_risk : String
  neighbourhood : String
  premises_breakdown : List (String × ℕ)
deriving DecidableEq, Repr

/-- Section "5. Insights" of `calculate_score` (computed only when
`df_current` is non-empty). -/
def insightsOf (B : Benchmarks) (tf : ℚ → ℚ) (df_current : List Incident)
    (breakdown : List (String × CatEntry)) : Insights :=
  let hourly := fun (h : ℕ) =>
    ((df_current.filter (fun r => decide (r.hour = h))).map (scoreOf tf)).sum
  let hourlyList := (List.range 24).map hourly
  let max_hourly := listMaxQ hourlyList
  let safety_clock : List ℤ :=
    if 0 < max_hourly then hourlyList.map (fun v => pyInt (100 - v / max_hourly * 100))
    else List.replicate 24 100
  let weekly : List ℚ := (List.range 7).map (fun d =>
    let day_df := df_current.filter (fun r => decide (r.dayofweek = d))
    if day_df = [] then 100
    else (calculate_percentile_score (((day_df.map (scoreOf tf)).sum) * 7)
      B.overall_distribution).1)
  let monthlyList := (List.range 12).map (fun j =>
    ((df_current.filter (fun r => decide (r.month = j + 1))).map (scoreOf tf)).sum)
  let max_monthly := listMaxQ monthlyList
  let monthly_pattern : List ℤ :=
    if 0 < max_monthly then monthlyList.map (fun v => pyInt (100 - v / max_monthly * 100))
    else List.replicate 12 100
  let peak_start := peakStartOf safety_clock
  let peak_end := (peak_start + 3) % 24
  let peak_time_range :=
    if peak_end = 0 then toString peak_start ++ ":00-12:00am"
    else toString peak_start ++ ":00-" ++ toString peak_end ++ ":00"
  let primary_risk := (breakdown.foldl (fun (acc : String × ℚ) ce =>
    if acc.2 < ce.2.weighted_impact then (ce.1, ce.2.weighted_impact) else acc)
    ("None", 0)).1
  ⟨safety_clock, monthly_pattern, weekly, fmtHour (idxMaxQ hourlyList),
   peak_time_range, primary_risk,
   strMode (df_current.map Incident.neighbourhood),
   (valueCounts (df_current.map Incident.premises_type)).take 5⟩

/-- The "Temporal Breakdown": day = local hour in `[6, 18)`, night = the
complement; each half's decayed score is doubled and converted through the
percentile mapping. -/
def temporalOf (B : Benchmarks) (tf : ℚ → ℚ) (df_current : List Incident) : ℚ × ℚ :=
  let day_df := df_current.filter (fun r => decide (6 ≤ r.hour) && decide (r.hour < 18))
  let night_df := df_current.filter (fun r => !(decide (6 ≤ r.hour) && decide (r.hour < 18)))
  ((calculate_percentile_score (((day_df.map (scoreOf tf)).sum) * 2) B.overall_distribution).1,
   (calculate_percentile_score (((night_df.map (scoreOf tf)).sum) * 2) B.overall_distribution).1)

/-- Section "6. Risk Tags": build the flat tag list, then partition it by the
substring tests (`"High"`/`"Risk"` → negative, `"Safe"` → positive). -/
def riskTagsOf (current_score : ℚ) (temporal : ℚ × ℚ)
    (breakdown : List (String × CatEntry)) : List String × List String :=
  let tags0 : List String :=
    if 80 ≤ current_score then ["High Safety Area"]
    else if current_score ≤ 40 then ["High Crime Area"]
    else []
  let tags1 := tags0 ++ (if temporal.2 < temporal.1 - 20 then ["Nighttime Risk"] else [])
  let tags := tags1 ++ breakdown.filterMap (fun ce =>
    if ce.2.safety_score < 50 then some ("High " ++ ce.1) else none)
  (tags.filter (fun t => Ingest.containsSub t "High" || Ingest.containsSub t "Risk"),
   tags.filter (fun t => Ingest.containsSub t "Safe"))

/-- Section "7. Benchmark": `(status, int(100 - current_score), 50)`. -/
def benchmarkOf (current_score : ℚ) : String × ℤ × ℚ :=
  let status :=
    if 90 ≤ current_score then "Very High Safety"
    else if 80 ≤ current_score then "High Safety"
    else if 60 ≤ current_score then "Moderate Safety"
    else if 40 ≤ current_score then "Low Safety"
    else "Very Low Safety"
  (status, pyInt (100 - current_score), 50)

/-- Section "2. History (10 Years)": bucket by age, sum *un-decayed* weights,
convert via the percentile mapping (empty buckets → safety 100, count 0). -/
def historyOf (B : Benchmarks) (current_year : ℤ) (df : List Incident) :
    List Forecasting.HistEntry :=
  (List.range 10).map (fun i =>
    let year_df := df.filter (fun r =>
      decide ((i : ℤ) * 365 ≤ r.days_old) && decide (r.days_old < ((i : ℤ) + 1) * 365))
    if year_df = [] then ⟨current_year - i, 100, 0⟩
    else ⟨current_year - i,
      (calculate_percentile_score ((year_df.map (fun r => weightOf r.category)).sum)
        B.overall_distribution).1,
      year_df.length⟩)

/-- The full Score Response record assembled by `calculate_score`. -/
structure Response where
  current_score : ℚ
  overall_percentile : ℚ
  history : List Forecasting.HistEntry
  category_breakdown : List (String × CatEntry)
  insights : Option Insights
  temporal_breakdown : ℚ × ℚ
  risk_tags : List String × List String
  benchmark : String × ℤ × ℚ
  forecast : Option Forecasting.Forecast
deriving DecidableEq, Repr

/-- The base response of `calculate_score`, returned unchanged when the
bounding-box query or the exact radius filter leaves no candidates
(`insights = {}` and `forecast = {}` are modelled as `none`). -/
def baseResponse : Response :=
  ⟨100, 0, [], [], none, (100, 100), ([], []), ("N/A", 0, 50), none⟩

/-- `scoring.py::calculate_score`.  `rows` is the result set of the SQL
bounding-box + 10-year query; `dist` is the haversine distance column
(trigonometric oracle); `tf` is `np.exp(-0.15 * ·)`; `fit` stands for the
model-fitting loop of `forecasting.select_best_forecast` (statsmodels /
sklearn library code) and produces its `results` list. -/
def calculate_score (dist : Incident → ℚ) (tf : ℚ → ℚ)
    (fit : List Forecasting.HistEntry → List Forecasting.ModelResult)
    (B : Benchmarks) (current_year : ℤ)
    (rows : List Incident) (radius_km : ℚ) : Response :=
  if rows = [] then baseResponse
  else
    let df := rows.filter (fun r => decide (dist r ≤ radius_km))
    if df = [] then baseResponse
    else
      let df_current := df.filter (fun r => decide (r.days_old ≤ 365))
      let cs : ℚ × ℚ :=
        if df_current = [] then (100, 0)
        else calculate_percentile_score ((df_current.map (scoreOf tf)).sum)
          B.overall_distribution
      let history := historyOf B current_year df
      let history_chronological := history.mergeSort (fun a b => decide (a.year ≤ b.year))
      let forecast := Forecasting.select_best_forecast history_chronological
        (fit history_chronological)
      let breakdown := if df_current = [] then [] else categoryBreakdownOf B tf df_current
      let it : Option Insights × (ℚ × ℚ) :=
        if df_current = [] then (none, (100, 100))
        else (some (insightsOf B tf df_current breakdown), temporalOf B tf df_current)
      { current_score := cs.1
        overall_percentile := cs.2
        history := history
        category_breakdown := breakdown
        insights := it.1
        temporal_breakdown := it.2
        risk_tags := riskTagsOf cs.1 it.2 breakdown
        benchmark := benchmarkOf cs.1
        forecast := some forecast }

end Scoring

/-! ## Test fixtures (concrete inputs for counterexamples and witnesses) -/

def fxDistZero : Scoring.Incident → ℚ := fun _ => 0
def fxDistFar : Scoring.Incident → ℚ := fun _ => 5
def fxTf : ℚ → ℚ := fun _ => 1
def fxFit : List Forecasting.HistEntry → List Forecasting.ModelResult := fun _ => []
def fxB : Scoring.Benchmarks := ⟨[], []⟩
def fxAssaultRecent : Scoring.Incident := ⟨100, "Assault", "ASSAULT", "Outside", "X", 12, 6, 0⟩
def fxAssaultPrior : Scoring.Incident := ⟨400, "Assault", "ASSAULT", "Outside", "X", 12, 6, 0⟩
def fxC3Rows : List Scoring.Incident :=
  List.replicate 5 fxAssaultRecent ++ List.replicate 5 fxAssaultPrior
def fxC4Rows : List Scoring.Incident := [⟨10, "Hate Crime", "Hate Crime", "Outside", "X", 12, 6, 0⟩]
def fxParse : String → Option Ingest.PDate :=
  fun s => if s = "2024-05-05" then some ⟨2024, 5, 5, 0, 0, 0⟩ else none
def fxCsvRow : Ingest.CsvRow :=
  ⟨some 43, none, some (-79), none, some "2024-05-05", none, none, some 14,
   some "Assault", some "ASSAULT", none, some "Outside", some "X", none, some "GO-1", none⟩
def fxGeoFeature : Ingest.GeoFeature := ⟨"Point", some [0, 0], some "notadate", none, none, some "X1"⟩
def fxGInc : GridBench.GIncident := ⟨437/10, -794/10, "Assault", 100⟩
def fxGDist : ℚ → ℚ → ℚ → ℚ → ℚ := fun _ _ _ _ => 0
def fxCos : ℚ → ℚ := fun _ => 1

/-! ## Claim C2 -/

/-- Claim C2 (counterexample): the claim asserts `raw_score ≤ 0` yields
`(100, 0)` unconditionally, *including for an empty distribution*; but the
source checks `if not distribution` first, so
`calculate_percentile_score(0, [])` returns `(50, 50)`, not `(100, 0)`. -/
theorem C2_counterexample :
    Scoring.calculate_percentile_score 0 [] = (50, 50) ∧
    Scoring.calculate_percentile_score 0 [] ≠ (100, 0) := by
  constructor
  · rfl
  · decide

/-- Claim C2 (amended): the empty-distribution default takes precedence:
an empty reference array yields `(50, 50)` for every raw score (even
`raw_score ≤ 0`); with a non-empty array, `raw_score ≤ 0` yields `(100, 0)`;
otherwise the percentile is `100 × (count of reference values strictly less
than raw_score) / length`, mapped through §4.5a, both components rounded to
1 decimal.  `calculate_percentile_score(0,[1,2,3]) = (100, 0)` and
`calculate_percentile_score(5,[]) = (50, 50)` hold as claimed. -/
theorem C2_amended :
    (∀ raw : ℚ, Scoring.calculate_percentile_score raw [] = (50, 50)) ∧
    (∀ (raw : ℚ) (dist : List ℚ), dist ≠ [] → raw ≤ 0 →
      Scoring.calculate_percentile_score raw dist = (100, 0)) ∧
    (∀ (raw : ℚ) (dist : List ℚ), dist.Sorted (· ≤ ·) → dist ≠ [] → 0 < raw →
      Scoring.calculate_percentile_score raw dist =
        (Scoring.pyRound1 (Scoring.percentile_to_safety_score
            (100 * (dist.countP (fun y => decide (y < raw)) : ℚ) / (dist.length : ℚ))),
         Scoring.pyRound1
            (100 * (dist.countP (fun y => decide (y < raw)) : ℚ) / (dist.length : ℚ)))) ∧
    Scoring.calculate_percentile_score 0 [1, 2, 3] = (100, 0) ∧
    Scoring.calculate_percentile_score 5 [] = (50, 50) := by
  refine ⟨?_, ?_, ?_, by decide, by decide⟩
  · intro raw
    unfold Scoring.calculate_percentile_score
    simp
  · intro raw dist hne hle
    unfold Scoring.calculate_percentile_score
    rw [if_neg hne, if_pos hle]
  · intro raw dist hs hne hpos
    unfold Scoring.calculate_percentile_score
    rw [if_neg hne, if_neg (not_le.mpr hpos)]
    have hb := Scoring.bisect_left_eq_countP hs raw
    have harith : ((dist.countP (fun y => decide (y < raw)) : ℚ) / (dist.length : ℚ)) * 100 =
        100 * (dist.countP (fun y => decide (y < raw)) : ℚ) / (dist.length : ℚ) := by
      ring
    dsimp only
    rw [hb, harith]

/-- Claim C2 (witness): the general formula evaluated at `raw_score = 3`
against the sorted distribution `[1,2,2,5,8]` — three reference values are
strictly below 3, so the percentile is 60 and the safety score 83.3. -/
theorem C2_witness :
    Scoring.calculate_percentile_score 3 [1, 2, 2, 5, 8] = (833/10, 60) := by
  have h := C2_amended.2.2.1 3 [1, 2, 2, 5, 8] (by decide) (by decide) (by norm_num)
  have hc : List.countP (fun y => decide (y < (3 : ℚ))) [1, 2, 2, 5, 8] = 3 := rfl
  rw [h, hc]
  norm_num [Scoring.pyRound1, Scoring.roundHalfEven, Scoring.percentile_to_safety_score,
    Prod.ext_iff]

/-! ## Claim C5 -/

/-- Claim C5: the percentile-to-safety mapping is non-increasing on `[0,100]`,
takes the values 100, 90, 70, 40, 0 at 0, 50, 80, 95, 100, and is continuous
from the left at the breakpoints 50, 80, 95 (left limits 90, 70, 40), i.e. it
attains 100, 90, 90, 70, 70, 40, 40, 0 at 0, 50⁻, 50, 80⁻, 80, 95⁻, 95, 100. -/
theorem C5_theorem :
    (∀ p q : ℚ, 0 ≤ p → p ≤ q → q ≤ 100 →
      Scoring.percentile_to_safety_score q ≤ Scoring.percentile_to_safety_score p) ∧
    Scoring.percentile_to_safety_score 0 = 100 ∧
    Scoring.percentile_to_safety_score 50 = 90 ∧
    Scoring.percentile_to_safety_score 80 = 70 ∧
    Scoring.percentile_to_safety_score 95 = 40 ∧
    Scoring.percentile_to_safety_score 100 = 0 ∧
    (∀ ε : ℚ, 0 < ε → ∃ δ : ℚ, 0 < δ ∧ ∀ p : ℚ, 50 - δ < p → p < 50 →
      |Scoring.percentile_to_safety_score p - 90| < ε) ∧
    (∀ ε : ℚ, 0 < ε → ∃ δ : ℚ, 0 < δ ∧ ∀ p : ℚ, 80 - δ < p → p < 80 →
      |Scoring.percentile_to_safety_score p - 70| < ε) ∧
    (∀ ε : ℚ, 0 < ε → ∃ δ : ℚ, 0 < δ ∧ ∀ p : ℚ, 95 - δ < p → p < 95 →
      |Scoring.percentile_to_safety_score p - 40| < ε) := by
  refine ⟨?_, by norm_num [Scoring.percentile_to_safety_score],
    by norm_num [Scoring.percentile_to_safety_score],
    by norm_num [Scoring.percentile_to_safety_score],
    by norm_num [Scoring.percentile_to_safety_score],
    by norm_num [Scoring.percentile_to_safety_score], ?_, ?_, ?_⟩
  · intro p q _ hpq _
    exact Scoring.percentile_to_safety_score_antitone hpq
  · intro ε hε
    refine ⟨5 * ε, by linarith, ?_⟩
    intro p h1 h2
    unfold Scoring.percentile_to_safety_score
    rw [if_pos (le_of_lt h2)]
    rw [abs_of_pos (by linarith)]
    linarith
  · intro ε hε
    refine ⟨min 30 (3 * ε / 2), lt_min (by norm_num) (by linarith), ?_⟩
    intro p h1 h2
    have hd1 : min 30 (3 * ε / 2) ≤ 30 := min_le_left _ _
    have hd2 : min 30 (3 * ε / 2) ≤ 3 * ε / 2 := min_le_right _ _
    unfold Scoring.percentile_to_safety_score
    rw [if_neg (not_le.mpr (by linarith)), if_pos (le_of_lt h2)]
    rw [abs_of_pos (by linarith)]
    linarith
  · intro ε hε
    refine ⟨min 15 (ε / 2), lt_min (by norm_num) (by linarith), ?_⟩
    intro p h1 h2
    have hd1 : min 15 (ε / 2) ≤ 15 := min_le_left _ _
    have hd2 : min 15 (ε / 2) ≤ ε / 2 := min_le_right _ _
    unfold Scoring.percentile_to_safety_score
    rw [if_neg (not_le.mpr (by linarith)), if_neg (not_le.mpr (by linarith)),
      if_pos (le_of_lt h2)]
    rw [abs_of_pos (by linarith)]
    linarith

/-- Claim C5 (witness): monotonicity instantiated at 10 ≤ 20. -/
theorem C5_witness :
    Scoring.percentile_to_safety_score 20 ≤ Scoring.percentile_to_safety_score 10 :=
  C5_theorem.1 10 20 (by norm_num) (by norm_num) (by norm_num)

/-! ## Claim C10 -/

/-- Claim C10: for every raw score of any sign and every sorted reference
distribution, both components returned by `calculate_percentile_score` lie in
`[0, 100]`. -/
theorem C10_theorem (raw : ℚ) (dist : List ℚ) (hs : dist.Sorted (· ≤ ·)) :
    0 ≤ (Scoring.calculate_percentile_score raw dist).1 ∧
    (Scoring.calculate_percentile_score raw dist).1 ≤ 100 ∧
    0 ≤ (Scoring.calculate_percentile_score raw dist).2 ∧
    (Scoring.calculate_percentile_score raw dist).2 ≤ 100 := by
  unfold Scoring.calculate_percentile_score
  split_ifs with h1 h2
  · norm_num
  · norm_num
  · dsimp only
    have hidx : Scoring.bisect_left dist raw ≤ dist.length := by
      rw [Scoring.bisect_left_eq_countP hs]
      exact dist.countP_le_length _
    have hlen : 0 < dist.length := List.length_pos.mpr h1
    have hlenQ : (0 : ℚ) < (dist.length : ℚ) := by exact_mod_cast hlen
    have hidxQ : ((Scoring.bisect_left dist raw : ℚ)) ≤ (dist.length : ℚ) := by
      exact_mod_cast hidx
    have hp0 : (0 : ℚ) ≤ ((Scoring.bisect_left dist raw : ℚ) / (dist.length : ℚ)) * 100 := by
      positivity
    have hp100 : ((Scoring.bisect_left dist raw : ℚ) / (dist.length : ℚ)) * 100 ≤ 100 := by
      rw [div_mul_eq_mul_div, div_le_iff₀ hlenQ]
      nlinarith
    exact ⟨Scoring.pyRound1_nonneg (Scoring.percentile_to_safety_score_nonneg hp100),
      Scoring.pyRound1_le_100 (Scoring.percentile_to_safety_score_le_100 hp0),
      Scoring.pyRound1_nonneg hp0, Scoring.pyRound1_le_100 hp100⟩

/-- Claim C10 (witness): the bounds at `raw_score = 7` against `[1,2,3]`. -/
theorem C10_witness :
    0 ≤ (Scoring.calculate_percentile_score 7 [1, 2, 3]).1 ∧
    (Scoring.calculate_percentile_score 7 [1, 2, 3]).1 ≤ 100 ∧
    0 ≤ (Scoring.calculate_percentile_score 7 [1, 2, 3]).2 ∧
    (Scoring.calculate_percentile_score 7 [1, 2, 3]).2 ≤ 100 :=
  C10_theorem 7 [1, 2, 3] (by decide)

/-! ## Claim C1 -/

/-- Claim C1 (counterexample): the GeoJSON ingestion path performs no
coordinate or date validation — a `Point` feature at `[0, 0]` with an
unparsable `OCC_DATE` is still inserted into the store, with zero
coordinates and the unparsed date (`str(None) = "None"` in the TEXT column),
contradicting the claimed store invariant. -/
theorem C1_counterexample :
    Ingest.ingest_geojson (fun _ => none) [fxGeoFeature] [] =
      [⟨"X1", none, 0, 0, "Homicide", "Homicide", "Unknown", "Unknown"⟩] ∧
    (⟨"X1", none, 0, 0, "Homicide", "Homicide", "Unknown", "Unknown"⟩ : Ingest.CrimeRec).lat = 0 ∧
    (⟨"X1", none, 0, 0, "Homicide", "Homicide", "Unknown", "Unknown"⟩ : Ingest.CrimeRec).date.isSome = false := by
  refine ⟨?_, rfl, rfl⟩
  decide

/-- Claim C1 (amended): the tabular/CSV ingestion path guarantees the
invariant — every row it accepts has non-zero, present coordinates and a
successfully parsed occurrence date, and invalid rows are dropped — so the
invariant is preserved on the store by `ingest_csv`.  (The GeoJSON path does
not validate, see the counterexample.) -/
theorem C1_amended (parse : String → Option Ingest.PDate) (file_name : String)
    (rows : List Ingest.CsvRow) (store : List Ingest.CrimeRec)
    (hstore : ∀ r ∈ store, r.lat ≠ 0 ∧ r.lon ≠ 0 ∧ r.date.isSome = true) :
    ∀ r ∈ Ingest.ingest_csv parse file_name rows store,
      r.lat ≠ 0 ∧ r.lon ≠ 0 ∧ r.date.isSome = true := by
  intro r hr
  unfold Ingest.ingest_csv at hr
  rcases Ingest.mem_insert_many _ _ _ hr with h | h
  · exact hstore r h
  · obtain ⟨row, _, hrow⟩ := List.mem_filterMap.mp h
    exact Ingest.process_csv_row_validated _ _ _ _ hrow

/-- Claim C1 (witness): ingesting one valid CSV row into an empty store; the
stored row satisfies the invariant. -/
theorem C1_witness :
    ((Ingest.ingest_csv fxParse "assault.csv" [fxCsvRow] []).headD
        ⟨"", none, 1, 1, "", "", "", ""⟩).lat ≠ 0 ∧
    ((Ingest.ingest_csv fxParse "assault.csv" [fxCsvRow] []).headD
        ⟨"", none, 1, 1, "", "", "", ""⟩).lon ≠ 0 ∧
    ((Ingest.ingest_csv fxParse "assault.csv" [fxCsvRow] []).headD
        ⟨"", none, 1, 1, "", "", "", ""⟩).date.isSome = true :=
  C1_amended fxParse "assault.csv" [fxCsvRow] [] (by simp) _ (by decide)

/-! ## Claim C8 -/

/-- Claim C8: tabular ingestion is idempotent — re-running `ingest_csv` on an
unchanged input file leaves the store unchanged, because a row whose
`event_unique_id` is already present is silently skipped by the
duplicate-ignore insert. -/
theorem C8_theorem :
    (∀ (parse : String → Option Ingest.PDate) (file_name : String)
       (rows : List Ingest.CsvRow) (store : List Ingest.CrimeRec),
      Ingest.ingest_csv parse file_name rows (Ingest.ingest_csv parse file_name rows store) =
        Ingest.ingest_csv parse file_name rows store) ∧
    (∀ (store : List Ingest.CrimeRec) (r : Ingest.CrimeRec),
      Ingest.idPresent store r.event_unique_id = true →
        Ingest.insert_or_ignore store r = store) := by
  constructor
  · intro parse file_name rows store
    unfold Ingest.ingest_csv
    apply Ingest.insert_many_of_all_present
    intro r hr
    exact Ingest.idPresent_of_mem_insert_many _ _ _ hr
  · intro store r h
    unfold Ingest.insert_or_ignore
    rw [h]
    simp

/-- Claim C8 (witness): a doubled one-row ingestion collapses to a single
one, and a duplicate-id insert into a concrete store is a no-op. -/
theorem C8_witness :
    Ingest.ingest_csv fxParse "assault.csv" [fxCsvRow]
        (Ingest.ingest_csv fxParse "assault.csv" [fxCsvRow] []) =
      Ingest.ingest_csv fxParse "assault.csv" [fxCsvRow] [] ∧
    Ingest.insert_or_ignore [⟨"GO-1", none, 1, 1, "", "", "", ""⟩]
        ⟨"GO-1", none, 2, 2, "", "", "", ""⟩ =
      [⟨"GO-1", none, 1, 1, "", "", "", ""⟩] :=
  ⟨C8_theorem.1 fxParse "assault.csv" [fxCsvRow] [],
   C8_theorem.2 [⟨"GO-1", none, 1, 1, "", "", "", ""⟩]
     ⟨"GO-1", none, 2, 2, "", "", "", ""⟩ (by decide)⟩

/-! ## Claim C6 -/

/-- Claim C6 (counterexample): on the claim's 2-entry history
`[{2023, 60}, {2024, 75}]` the `len(history) < 3` early return fires *before*
any model is consulted, so even with a selected model predicting 55 the
result is `("Insufficient Data", "Stable", 75)` — not the claimed
`"Improving"` / `"(Adjusted)"` override. -/
theorem C6_counterexample :
    (Forecasting.select_best_forecast [⟨2023, 60, 0⟩, ⟨2024, 75, 0⟩]
        [⟨"Linear Regression", 55, 2, 4⟩]).trend_direction = "Stable" ∧
    (Forecasting.select_best_forecast [⟨2023, 60, 0⟩, ⟨2024, 75, 0⟩]
        [⟨"Linear Regression", 55, 2, 4⟩]).model_used = "Insufficient Data" ∧
    (Forecasting.select_best_forecast [⟨2023, 60, 0⟩, ⟨2024, 75, 0⟩]
        [⟨"Linear Regression", 55, 2, 4⟩]).predicted_score = 75 := by
  refine ⟨rfl, rfl, rfl⟩

/-- Claim C6 (amended): both trend overrides behave as claimed whenever model
selection is actually reached, i.e. the history has at least 3 entries and at
least one model succeeded.  With `diff` = most recent year's safety score
minus the year before it: if `diff > 10` and the min-RMSE model's prediction
is below the most recent score, the returned prediction is the most recent
score, the trend is "Improving", and the model name gets the " (Adjusted)"
suffix; symmetrically, if `diff < -10` and the prediction is above the most
recent score, the returned prediction is the most recent score with trend
"Declining" and the same suffix.  (The claim's 2-entry example instead hits
the "Insufficient Data" early return; a 3-entry history such as
`[{2022, 70}, {2023, 60}, {2024, 75}]` exhibits the Improving override.) -/
theorem C6_amended :
    (∀ (history : List Forecasting.HistEntry)
       (b : Forecasting.ModelResult) (rest : List Forecasting.ModelResult),
      ¬ history.length < 3 →
      10 < Forecasting.lastScore history - Forecasting.prevScore history →
      (Forecasting.bestBy b rest).predicted_score < Forecasting.lastScore history →
      Forecasting.select_best_forecast history (b :: rest) =
        ⟨Forecasting.lastScore history, "Improving",
         (Forecasting.bestBy b rest).model ++ " (Adjusted)",
         (Forecasting.bestBy b rest).rmse,
         .txt ("Â±" ++ toString (Forecasting.bestBy b rest).confidence_interval)⟩) ∧
    (∀ (history : List Forecasting.HistEntry)
       (b : Forecasting.ModelResult) (rest : List Forecasting.ModelResult),
      ¬ history.length < 3 →
      Forecasting.lastScore history - Forecasting.prevScore history < -10 →
      Forecasting.lastScore history < (Forecasting.bestBy b rest).predicted_score →
      Forecasting.select_best_forecast history (b :: rest) =
        ⟨Forecasting.lastScore history, "Declining",
         (Forecasting.bestBy b rest).model ++ " (Adjusted)",
         (Forecasting.bestBy b rest).rmse,
         .txt ("Â±" ++ toString (Forecasting.bestBy b rest).confidence_interval)⟩) := by
  constructor
  · intro history b rest h3 hdiff hpred
    unfold Forecasting.select_best_forecast
    rw [if_neg h3]
    dsimp only
    rw [if_pos hdiff, if_pos hpred]
    rfl
  · intro history b rest h3 hdiff hpred
    unfold Forecasting.select_best_forecast
    rw [if_neg h3]
    dsimp only
    rw [if_neg (by linarith : ¬ (10 : ℚ) <
        Forecasting.lastScore history - Forecasting.prevScore history),
      if_pos hdiff, if_pos hpred]
    rfl

/-- Claim C6 (witness): both overrides at concrete inputs.  On the 3-entry
history `[{2022, 70}, {2023, 60}, {2024, 75}]` (diff = 15 > 10) with one
fitted model predicting 55, the prediction is overridden to 75 with trend
"Improving" and an " (Adjusted)"-suffixed model name; on
`[{2022, 50}, {2023, 75}, {2024, 60}]` (diff = -15 < -10) with a model
predicting 80, it is overridden to 60 with trend "Declining". -/
theorem C6_witness :
    (Forecasting.select_best_forecast [⟨2022, 70, 0⟩, ⟨2023, 60, 0⟩, ⟨2024, 75, 0⟩]
        [⟨"Linear Regression", 55, 2, 4⟩]).predicted_score = 75 ∧
    (Forecasting.select_best_forecast [⟨2022, 70, 0⟩, ⟨2023, 60, 0⟩, ⟨2024, 75, 0⟩]
        [⟨"Linear Regression", 55, 2, 4⟩]).trend_direction = "Improving" ∧
    (Forecasting.select_best_forecast [⟨2022, 70, 0⟩, ⟨2023, 60, 0⟩, ⟨2024, 75, 0⟩]
        [⟨"Linear Regression", 55, 2, 4⟩]).model_used = "Linear Regression (Adjusted)" ∧
    (Forecasting.select_best_forecast [⟨2022, 50, 0⟩, ⟨2023, 75, 0⟩, ⟨2024, 60, 0⟩]
        [⟨"Moving Average", 80, 3, 6⟩]).predicted_score = 60 ∧
    (Forecasting.select_best_forecast [⟨2022, 50, 0⟩, ⟨2023, 75, 0⟩, ⟨2024, 60, 0⟩]
        [⟨"Moving Average", 80, 3, 6⟩]).trend_direction = "Declining" ∧
    (Forecasting.select_best_forecast [⟨2022, 50, 0⟩, ⟨2023, 75, 0⟩, ⟨2024, 60, 0⟩]
        [⟨"Moving Average", 80, 3, 6⟩]).model_used = "Moving Average (Adjusted)" := by
  have h1 := C6_amended.1 [⟨2022, 70, 0⟩, ⟨2023, 60, 0⟩, ⟨2024, 75, 0⟩]
    ⟨"Linear Regression", 55, 2, 4⟩ [] (by decide)
    (by norm_num [Forecasting.lastScore, Forecasting.prevScore])
    (by norm_num [Forecasting.lastScore, Forecasting.bestBy])
  have h2 := C6_amended.2 [⟨2022, 50, 0⟩, ⟨2023, 75, 0⟩, ⟨2024, 60, 0⟩]
    ⟨"Moving Average", 80, 3, 6⟩ [] (by decide)
    (by norm_num [Forecasting.lastScore, Forecasting.prevScore])
    (by norm_num [Forecasting.lastScore, Forecasting.bestBy])
  rw [h1, h2]
  refine ⟨by norm_num [Forecasting.lastScore], rfl, rfl,
    by norm_num [Forecasting.lastScore], rfl, rfl⟩

/-! ## Claim C9 -/

theorem length_flatMap_map {α β γ : Type} (xs : List α) (ys : List β) (f : α → β → γ) :
    (xs.flatMap (fun a => ys.map (f a))).length = xs.length * ys.length := by
  induction xs with
  | nil => simp
  | cons a t ih =>
    simp only [List.flatMap_cons, List.length_append, List.length_map, List.length_cons, ih]
    ring

/-- Claim C9: every persisted benchmark document has
`overall_distribution` of length equal to the total number of grid points —
the full cartesian product of the latitude and longitude steps over the city
bounding box — sorted ascending, and every per-category array in
`by_category` has that same length and is sorted ascending. -/
theorem C9_theorem (distKm : ℚ → ℚ → ℚ → ℚ → ℚ) (timeFactor cosDeg : ℚ → ℚ)
    (df : List GridBench.GIncident) (doc : GridBench.BenchmarkDoc)
    (h : GridBench.generate_benchmarks distKm timeFactor cosDeg df = some doc) :
    doc.overall_distribution.length = doc.total_points ∧
    doc.total_points = GridBench.latsGrid.length * (GridBench.lonsGrid cosDeg).length ∧
    doc.overall_distribution.Sorted (· ≤ ·) ∧
    ∀ p ∈ doc.by_category, p.2.length = doc.total_points ∧ p.2.Sorted (· ≤ ·) := by
  unfold GridBench.generate_benchmarks at h
  rcases eq_or_ne df [] with hdf | hdf
  · rw [if_pos hdf] at h
    exact Option.noConfusion h
  · rw [if_neg hdf, Option.some_inj] at h
    subst h
    unfold GridBench.buildDoc
    dsimp only
    refine ⟨by simp [Scoring.length_sortAsc], ?_, Scoring.sorted_sortAsc _, ?_⟩
    · unfold GridBench.grid_points
      exact length_flatMap_map _ _ _
    · intro p hp
      obtain ⟨cw, hcw, rfl⟩ := List.mem_map.mp hp
      exact ⟨by simp [Scoring.length_sortAsc], Scoring.sorted_sortAsc _⟩

/-- Claim C9 (witness): the built document for a one-incident table has a
sorted overall distribution of length `total_points`. -/
theorem C9_witness :
    (GridBench.buildDoc fxGDist fxTf fxCos [fxGInc]).overall_distribution.length =
      (GridBench.buildDoc fxGDist fxTf fxCos [fxGInc]).total_points ∧
    (GridBench.buildDoc fxGDist fxTf fxCos [fxGInc]).overall_distribution.Sorted (· ≤ ·) := by
  have h := C9_theorem fxGDist fxTf fxCos [fxGInc]
    (GridBench.buildDoc fxGDist fxTf fxCos [fxGInc]) ?_
  · exact ⟨h.1, h.2.2.1⟩
  · unfold GridBench.generate_benchmarks
    rw [if_neg (by simp)]

/-! ## Claim C7 -/

/-- Claim C7: when no queried incident lies within `radius_km` (over the
10-year window delivered by the bounding-box query), `calculate_score`
returns the all-safe default: `current_score = 100`,
`overall_percentile = 0`, empty `category_breakdown`, empty `insights`, and
day and night safety scores of 100. -/
theorem C7_theorem (dist : Scoring.Incident → ℚ) (tf : ℚ → ℚ)
    (fit : List Forecasting.HistEntry → List Forecasting.ModelResult)
    (B : Scoring.Benchmarks) (year : ℤ) (rows : List Scoring.Incident)
    (radius_km : ℚ) (h : ∀ r ∈ rows, ¬ dist r ≤ radius_km) :
    Scoring.calculate_score dist tf fit B year rows radius_km = Scoring.baseResponse ∧
    Scoring.baseResponse.current_score = 100 ∧
    Scoring.baseResponse.overall_percentile = 0 ∧
    Scoring.baseResponse.category_breakdown = [] ∧
    Scoring.baseResponse.insights = none ∧
    Scoring.baseResponse.temporal_breakdown = (100, 100) := by
  refine ⟨?_, rfl, rfl, rfl, rfl, rfl⟩
  unfold Scoring.calculate_score
  rcases eq_or_ne rows [] with hr | hr
  · rw [if_pos hr]
  · rw [if_neg hr]
    have hf : rows.filter (fun r => decide (dist r ≤ radius_km)) = [] :=
      List.filter_eq_nil_iff.mpr (fun a ha => by simpa using h a ha)
    dsimp only
    rw [if_pos hf]

/-- Claim C7 (witness): one candidate 5 km away with a 1 km radius yields the
all-safe default response. -/
theorem C7_witness :
    Scoring.calculate_score fxDistFar fxTf fxFit fxB 2025 [fxAssaultRecent] 1 =
      Scoring.baseResponse ∧
    Scoring.baseResponse.current_score = 100 ∧
    Scoring.baseResponse.overall_percentile = 0 ∧
    Scoring.baseResponse.category_breakdown = [] ∧
    Scoring.baseResponse.insights = none ∧
    Scoring.baseResponse.temporal_breakdown = (100, 100) :=
  C7_theorem fxDistFar fxTf fxFit fxB 2025 [fxAssaultRecent] 1 (by decide)

/-! ## Claim C3 -/

/-- Claim C3: the trend comparison is broken in the source — `recent_mask`
and `prev_mask` are taken over `cat_df`, a subset of `df_current`
(already filtered to `days_old ≤ 365`), so the prior-window count is always
0 and every reported trend is "Up".  On a query whose in-radius candidates
hold 5 recent (≤ 365 days) and 5 prior-window (365–730 days) Assault
incidents — equal counts, for which the claim requires "Stable" — the code
reports "Up". -/
theorem C3_theorem :
    ((Scoring.calculate_score fxDistZero fxTf fxFit fxB 2025 fxC3Rows 1).category_breakdown.find?
        (fun p => decide (p.1 = "Assault"))).map (fun p => p.2.trend) = some "Up" ∧
    (fxC3Rows.filter (fun r =>
        decide (r.days_old ≤ 365) && decide (r.category = "Assault"))).length = 5 ∧
    (fxC3Rows.filter (fun r => decide (365 < r.days_old) && decide (r.days_old ≤ 730) &&
        decide (r.category = "Assault"))).length = 5 ∧
    fxC3Rows.all (fun r => decide (fxDistZero r ≤ 1)) = true :=
  ⟨by decide, by decide, by decide, by decide⟩

/-! ## Claim C4 -/

/-- Claim C4 (counterexample): a single in-radius, 10-day-old "Hate Crime"
incident — a category ingestion can store via its filename-derived fallback,
but which is absent from the severity-weight table — produces an *empty*
`category_breakdown`, because the source iterates over `WEIGHTS.keys()`
only. -/
theorem C4_counterexample :
    (Scoring.calculate_score fxDistZero fxTf fxFit fxB 2025 fxC4Rows 1).category_breakdown = [] ∧
    (fxC4Rows.filter (fun r =>
        decide (r.days_old ≤ 365) && decide (r.category = "Hate Crime"))).length = 1 ∧
    fxC4Rows.all (fun r => decide (fxDistZero r ≤ 1)) = true :=
  ⟨by decide, by decide, by decide⟩

/-- Helper: the `category_breakdown` field of `calculate_score` in terms of
`categoryBreakdownOf` over the ≤365-day in-radius candidates. -/
theorem Scoring.calculate_score_category_breakdown
    (dist : Scoring.Incident → ℚ) (tf : ℚ → ℚ)
    (fit : List Forecasting.HistEntry → List Forecasting.ModelResult)
    (B : Scoring.Benchmarks) (year : ℤ) (rows : List Scoring.Incident)
    (radius_km : ℚ) :
    (Scoring.calculate_score dist tf fit B year rows radius_km).category_breakdown =
      (if (rows.filter (fun r => decide (dist r ≤ radius_km))).filter
            (fun r => decide (r.days_old ≤ 365)) = [] then []
       else Scoring.categoryBreakdownOf B tf
         ((rows.filter (fun r => decide (dist r ≤ radius_km))).filter
            (fun r => decide (r.days_old ≤ 365)))) := by
  unfold Scoring.calculate_score
  rcases eq_or_ne rows [] with hr | hr
  · subst hr
    simp [Scoring.baseResponse]
  · rw [if_neg hr]
    dsimp only
    rcases eq_or_ne (rows.filter (fun r => decide (dist r ≤ radius_km))) [] with hf | hf
    · rw [if_pos hf, hf]
      simp [Scoring.baseResponse]
    · rw [if_neg hf]

/-- Helper: a category appears in `categoryBreakdownOf` iff it is one of the
severity-table categories and has at least one row in `df_current`. -/
theorem Scoring.mem_categoryBreakdownOf (B : Scoring.Benchmarks) (tf : ℚ → ℚ)
    (df_current : List Scoring.Incident) (cat : String) :
    (∃ e, (cat, e) ∈ Scoring.categoryBreakdownOf B tf df_current) ↔
      (cat ∈ Scoring.WEIGHTS.map Prod.fst ∧
       0 < (df_current.filter (fun r => decide (r.category = cat))).length) := by
  constructor
  · rintro ⟨e, he⟩
    unfold Scoring.categoryBreakdownOf at he
    obtain ⟨cw, hcw, hsome⟩ := List.mem_filterMap.mp he
    by_cases hz : (df_current.filter (fun r => decide (r.category = cw.1))).length = 0
    · rw [if_pos hz] at hsome
      exact Option.noConfusion hsome
    · rw [if_neg hz] at hsome
      rw [Option.some_inj] at hsome
      have hfst : cw.1 = cat := congrArg Prod.fst hsome
      subst hfst
      exact ⟨List.mem_map.mpr ⟨cw, hcw, rfl⟩, Nat.pos_of_ne_zero hz⟩
  · rintro ⟨hmem, hpos⟩
    obtain ⟨cw, hcw, hfst⟩ := List.mem_map.mp hmem
    subst hfst
    have hz : ¬ (df_current.filter (fun r => decide (r.category = cw.1))).length = 0 :=
      Nat.pos_iff_ne_zero.mp hpos
    exact ⟨Scoring.catEntryOf B tf df_current cw,
      List.mem_filterMap.mpr ⟨cw, hcw, by rw [if_neg hz]⟩⟩

/-- Claim C4 (amended): for every query, `category_breakdown` contains an
entry for a category iff that category belongs to the fixed severity-weight
table *and* appears with count > 0 among the ≤365-day in-radius candidates;
categories outside the table (such as "Hate Crime") are never reported. -/
theorem C4_amended (dist : Scoring.Incident → ℚ) (tf : ℚ → ℚ)
    (fit : List Forecasting.HistEntry → List Forecasting.ModelResult)
    (B : Scoring.Benchmarks) (year : ℤ) (rows : List Scoring.Incident)
    (radius_km : ℚ) (cat : String) :
    (∃ e, (cat, e) ∈
        (Scoring.calculate_score dist tf fit B year rows radius_km).category_breakdown) ↔
      (cat ∈ Scoring.WEIGHTS.map Prod.fst ∧
       0 < (((rows.filter (fun r => decide (dist r ≤ radius_km))).filter
          (fun r => decide (r.days_old ≤ 365))).filter
          (fun r => decide (r.category = cat))).length) := by
  rw [Scoring.calculate_score_category_breakdown]
  split_ifs with hf
  · rw [hf]
    simp
  · exact Scoring.mem_categoryBreakdownOf B tf _ cat

/-- Claim C4 (witness): on the concrete query with recent Assault incidents,
an "Assault" entry does appear in the breakdown. -/
theorem C4_witness :
    ∃ e, ("Assault", e) ∈
      (Scoring.calculate_score fxDistZero fxTf fxFit fxB 2025 fxC3Rows 1).category_breakdown :=
  (C4_amended fxDistZero fxTf fxFit fxB 2025 fxC3Rows 1 "Assault").mpr (by decide)
